import Mathlib

/-!
Verification development for the prescription-analysis backend.

The definitions below are a shallow embedding of the three backend modules:

* `backend/prompt.py`   — chat-mode prompt lookup and the global disclaimer;
* `backend/vision_client.py` — the SSE streaming client `VisionLLMClient.stream`;
* `backend/chain.py`    — the pipeline `VisionChain.analyze_prescription` and
  the chat entry point `VisionChain.stream_with_mode`.

Python strings are modelled as Lean `String`; the string primitives the code
uses (`startswith`, slicing, `strip`) are re-implemented over the underlying
character list so that they evaluate inside the kernel.  Python floats are
modelled as rationals; every numeric literal the code compares against
(0.7, 0, 1.0) is exactly representable, so the comparisons agree.  JSON
dictionaries decoded from model output are modelled as structures whose
fields are `Option`-valued: `none` stands for an absent key, and `getD`
mirrors the `dict.get(key, default)` accesses of the source.
-/

/-! ## Python string primitives over character lists -/

/-- Python `s.startswith(p)`, over the character list of the string. -/
def startsWithChars (s p : String) : Bool := p.data.isPrefixOf s.data

/-- Python `s[n:]` (drop the first `n` characters). -/
def dropChars (s : String) (n : Nat) : String := String.mk (s.data.drop n)

/-- Python `s.strip()`: remove leading and trailing whitespace. -/
def stripChars (s : String) : String :=
  String.mk (((s.data.dropWhile Char.isWhitespace).reverse.dropWhile Char.isWhitespace).reverse)

/-- Concatenation of a list of string fragments, in order. -/
def concatAll : List String → String
  | [] => ""
  | s :: rest => s ++ concatAll rest

@[simp] theorem concatAll_nil : concatAll [] = "" := rfl

@[simp] theorem concatAll_cons (s : String) (l : List String) :
    concatAll (s :: l) = s ++ concatAll l := rfl

/-- The string `needle` occurs contiguously inside the string `hay`. -/
def containsSubstring (hay needle : String) : Prop := needle.data <:+: hay.data

/-! ## backend/prompt.py -/

/-- Text of `MODE_PROMPTS["Explain Prescription"]`. -/
def EXPLAIN_PRESCRIPTION_TEXT : String :=
  "You are a medical assistant.\nSTRICT RULE: If no valid prescription data is provided in context, refuse to answer and ask the user to upload a prescription.\nUse the provided structured data to explain medicine purposes and usage.\nSTRICT: Only refer to the medicines in the current prescription.\nDISCLAIMER: Always start with \"Note: This is an AI explanation, not medical advice.\" "

/-- Text of `MODE_PROMPTS["Create Schedule"]`. -/
def CREATE_SCHEDULE_TEXT : String :=
  "You are a medication scheduling assistant.\nSTRICT RULE: If no valid prescription data is provided in context, refuse to answer and ask the user to upload a prescription.\nConvert the prescription into a daily schedule.\nDISCLAIMER: \"Note: Confirm this schedule with your pharmacist.\" "

/-- The `MODE_PROMPTS` dictionary, as an association list in source order. -/
def MODE_PROMPTS : List (String × String) :=
  [(("Explain Prescription"), EXPLAIN_PRESCRIPTION_TEXT),
   (("Create Schedule"), CREATE_SCHEDULE_TEXT)]

/-- The fallback instruction that `get_mode_prompt` returns for a mode that is
not a key of `MODE_PROMPTS`. -/
def DEFAULT_MODE_TEXT : String := "You are a helpful medical assistant."

/-- Source `get_mode_prompt`: `MODE_PROMPTS.get(mode, "You are a helpful medical assistant.")`. -/
def get_mode_prompt (mode : String) : String :=
  (List.lookup mode MODE_PROMPTS).getD DEFAULT_MODE_TEXT

/-- Source constant `GLOBAL_DISCLAIMER`. -/
def GLOBAL_DISCLAIMER : String :=
  "\n\n**⚠️ Disclaimer:** This is an AI-generated analysis of a prescription. It is not a medical diagnosis or professional advice. Always verify with your doctor or pharmacist before taking any medication."

/-! ## backend/vision_client.py -/

/-- An HTTP response as the client observes it: the status code, the body as
text (used in the error message), and the body as the sequence of decoded
lines that `response.iter_lines()` yields. -/
structure HTTPResponse where
  status_code : Nat
  text : String
  lines : List String
deriving DecidableEq, Repr

/-- Outcome of evaluating `json.loads(json_str)` followed by
`chunk["choices"][0]["delta"].get("content", "")` on one event payload.
The `except` clause at source line 109 names `JSONDecodeError`, `KeyError`
and `IndexError` only, so the evaluation has three observably different
outcomes:

* `skipped` — one of those three named exceptions is raised (payload is not
  JSON, or a dict lacks `"choices"`/`"delta"`, or the `choices` list is
  empty); the source catches it and continues with the next line;
* `raised` — any other exception is raised and propagates out of the
  generator, aborting the stream: for example `[1]` decodes to a list and
  `chunk["choices"]` raises `TypeError`, and with `"delta": null` the
  `.get` call raises `AttributeError`;
* `content c` — the expression evaluates to the string `c`, with `c = ""`
  when the `content` key is absent or empty. -/
inductive PayloadResult
| skipped
| raised
| content (c : String)
deriving DecidableEq, Repr

/-- SSE event-payload decoding oracle: the behaviour of the JSON library
(outside the repository) on each payload, as a `PayloadResult`. -/
def SSEDecoder : Type := String → PayloadResult

/-- The SSE read loop of `VisionLLMClient.stream` (source lines 87 to 111):
skip empty lines, skip lines without the `"data: "` prefix, stop at the
first `[DONE]` payload, skip payloads whose decode raises one of the three
caught exception classes, and yield each non-empty content fragment in
order.  The result pairs the yielded fragments with an abort flag: `true`
when an uncaught exception from a payload decode propagated out of the
generator and ended the stream at that point. -/
def sseRun (parse : SSEDecoder) : List String → List String × Bool
  | [] => ([], false)
  | line :: rest =>
    if line = ("") then sseRun parse rest
    else if startsWithChars line ("data: ") = false then sseRun parse rest
    else if stripChars (dropChars line 6) = ("[DONE]") then ([], false)
    else
      match parse (dropChars line 6) with
      | PayloadResult.skipped => sseRun parse rest
      | PayloadResult.raised => ([], true)
      | PayloadResult.content c =>
        if c = ("") then sseRun parse rest
        else
          let r := sseRun parse rest
          (c :: r.1, r.2)

/-- The error message of the `ValueError` raised on a non-200 status:
`f"API Error {status_code}: {text}"`. -/
def apiErrorMessage (status_code : Nat) (body : String) : String :=
  ("API Error ") ++ toString status_code ++ (": ") ++ body

namespace VisionLLMClient

/-- Source `VisionLLMClient.stream`, as a function from the observed HTTP
response to either the raised error (non-200 status, source lines 81 to 84)
or the outcome of the SSE loop: the yielded fragments paired with the flag
marking a mid-stream uncaught decode exception. -/
def stream (parse : SSEDecoder) (response : HTTPResponse) :
    Except String (List String × Bool) :=
  if response.status_code ≠ 200 then
    Except.error (apiErrorMessage response.status_code response.text)
  else
    Except.ok (sseRun parse response.lines)

end VisionLLMClient

/-! ## backend/chain.py — data model -/

/-- Decoded validation payload (step 0).  Fields are optional because the
model-produced JSON may omit keys; `getD` mirrors `validation.get(...)`. -/
structure Validation where
  is_prescription : Option Bool
  confidence : Option ℚ
  reason : Option String
deriving DecidableEq, Repr

/-- One entry of the audit `ambiguities` list. -/
structure Ambiguity where
  medicine_name : Option String
  field : Option String
  issue : Option String
  options : Option (List String)
deriving DecidableEq, Repr

/-- Decoded normalization payload (step 2).  Only the fields the pipeline
reads or writes are modelled; medicine entries are opaque to the pipeline. -/
structure Extraction where
  medicines : Option (List String)
  overall_confidence : Option ℚ
deriving DecidableEq, Repr

/-- Decoded audit payload (step 3 and 4), plus the `validation` key the
orchestrator writes into it. -/
structure Audit where
  ambiguities : Option (List Ambiguity)
  safety_flags : Option (List String)
  is_safe_to_display : Option Bool
  validation : Option Validation
deriving DecidableEq, Repr

/-- The dictionary `analyze_prescription` returns.  `ambiguity_state` is
`none` exactly when the key is absent (the safety-gate rejection). -/
structure AnalysisResult where
  validation : Validation
  extraction : Extraction
  audit : Audit
  raw_ocr : String
  ambiguity_state : Option String
deriving DecidableEq, Repr

/-! ## backend/chain.py — ambiguity classification (source lines 99 to 115) -/

/-- First fixed safety flag added in the UNRESOLVABLE branch. -/
def FLAG_UNCLEAR : String := "Handwriting too unclear for safe AI interpretation"

/-- Second fixed safety flag added in the UNRESOLVABLE branch. -/
def FLAG_NO_CANDIDATES : String := "No medically safe correction candidates available"

/-- Append a flag to the list only when it is not already present, as the
two `if ... not in ... : append` statements of the source do. -/
def appendIfAbsent (flags : List String) (f : String) : List String :=
  if f ∈ flags then flags else flags ++ [f]

/-- The three-way state decision of source lines 103 to 108. -/
def classifyState (confidence : ℚ) (ambiguities : List Ambiguity) : String :=
  if confidence ≥ 7/10 then ("CLEAR")
  else if 0 < ambiguities.length ∧ ambiguities.any (fun a => 0 < (a.options.getD []).length)
  then ("CLARIFIABLE")
  else ("UNRESOLVABLE")

/-- The safety-flag update of source lines 110 to 115: ensure the key exists
(`getD []`), then append each of the two fixed flags when absent. -/
def unresolvableFlags (flags : List String) : List String :=
  appendIfAbsent (appendIfAbsent flags FLAG_UNCLEAR) FLAG_NO_CANDIDATES

/-- The whole classification step (source lines 99 to 115): read
`extraction.get("overall_confidence", 1.0)` and `audit.get("ambiguities", [])`,
decide the state, and in the UNRESOLVABLE case update the audit record's
`safety_flags` in place. -/
def determineAmbiguity (extraction : Extraction) (audit : Audit) : String × Audit :=
  let confidence := extraction.overall_confidence.getD 1
  let ambiguities := audit.ambiguities.getD []
  let state := classifyState confidence ambiguities
  if state = ("UNRESOLVABLE") then
    (state, { audit with safety_flags := some (unresolvableFlags (audit.safety_flags.getD [])) })
  else (state, audit)

namespace VisionChain

/-- Source `VisionChain.analyze_prescription`, parameterised by the decoded
stage results: `validation` is the step-0 payload after JSON decoding (or
its fallback), `raw_ocr` the step-1 text, `extraction` and `audit` the
decoded step-2 and step-3 payloads (or their fallbacks).  The gate condition
is `not validation.get("is_prescription") or validation.get("confidence", 0) < 0.7`
(source line 60); `getD false` models the falsiness of `None` and `False`. -/
def analyze_prescription (validation : Validation) (raw_ocr : String)
    (extraction : Extraction) (audit : Audit) : AnalysisResult :=
  if validation.is_prescription.getD false = false ∨ validation.confidence.getD 0 < 7/10 then
    { validation := validation,
      extraction := { medicines := some [], overall_confidence := some 0 },
      audit := { ambiguities := some [],
                 safety_flags := some [("Image rejected by safety gate.")],
                 is_safe_to_display := some false,
                 validation := none },
      raw_ocr := "",
      ambiguity_state := none }
  else
    let audit1 := { audit with validation := some validation }
    let classified := determineAmbiguity extraction audit1
    { validation := validation,
      extraction := extraction,
      audit := classified.2,
      raw_ocr := raw_ocr,
      ambiguity_state := some classified.1 }

end VisionChain

/-! ## backend/chain.py — stream_with_mode (source lines 139 to 196) -/

/-- The fixed text appended to the system prompt when the ambiguity state is
UNRESOLVABLE (source line 155). -/
def SAFETY_RULE_SUFFIX : String :=
  "\n\nSAFETY RULE: The current prescription handwriting is UNRESOLVABLE. Do NOT infer or suggest medicine names unless the user explicitly provides them in this chat. Avoid all guesses."

/-- The system prompt after the conditional safety injection
(source lines 151 to 155). -/
def systemPromptFor (mode ambiguity_state : String) : String :=
  let base := get_mode_prompt mode
  if ambiguity_state = ("UNRESOLVABLE") then base ++ SAFETY_RULE_SUFFIX else base

/-- Fixed prefix of the context message (source line 157); the argument of
the f-string, `json.dumps(extraction_context)`, is abstracted as a string. -/
def CONTEXT_PREFIX : String :=
  "Context: The following verified data was extracted from the prescription: "

/-- The single outgoing system message `combined_system`
(source line 160): system prompt, blank line, context message. -/
def combinedSystem (mode ambiguity_state extraction_json : String) : String :=
  systemPromptFor mode ambiguity_state ++ ("\n\n") ++ (CONTEXT_PREFIX ++ extraction_json)

/-- One entry of the conversation history. -/
inductive ChatTurn
| user (text : String)
| assistant (text : String)
deriving DecidableEq, Repr

/-- Observable events of the `stream_with_mode` generator body, in program
order: a yielded fragment, or an append to the conversation history.
(`save_chat_message`, the external DB mirror of each append, is keyed by the
same data and is not modelled separately.) -/
inductive GenEvent
| emit (s : String)
| appendUser (s : String)
| appendAI (s : String)
deriving DecidableEq, Repr

/-- The event trace of one `stream_with_mode` call whose underlying client
produces `model_chunks` (source lines 180 to 196): the user message is
appended before the first yield, each model chunk is yielded in order, the
disclaimer is yielded as a separate final fragment, and only then is the
assistant reply — full response plus disclaimer — appended. -/
def streamWithModeTrace (model_chunks : List String) (user_query : String) : List GenEvent :=
  GenEvent.appendUser user_query ::
    (model_chunks.map GenEvent.emit ++
      [GenEvent.emit GLOBAL_DISCLAIMER,
       GenEvent.appendAI (concatAll model_chunks ++ GLOBAL_DISCLAIMER)])

/-- The fragments a trace yields, in order. -/
def fragmentsOfTrace (t : List GenEvent) : List String :=
  t.filterMap (fun e => match e with
    | GenEvent.emit s => some s
    | _ => none)

/-- The `ChatTurn`s a trace appends to the history, in order. -/
def turnsOfTrace (t : List GenEvent) : List ChatTurn :=
  t.filterMap (fun e => match e with
    | GenEvent.appendUser s => some (ChatTurn.user s)
    | GenEvent.appendAI s => some (ChatTurn.assistant s)
    | _ => none)

/-- Generator semantics of consuming exactly `k` fragments and then
abandoning the iterator: the events before and including the `k`-th yield
have executed; the generator is then suspended at that yield and, on
abandonment, the remaining statements never run.  `consumePrefix t 0` is
the trace of a caller that never requests a fragment. -/
def consumePrefix : List GenEvent → Nat → List GenEvent
  | _, 0 => []
  | [], _ + 1 => []
  | GenEvent.emit s :: rest, k + 1 => GenEvent.emit s :: consumePrefix rest k
  | GenEvent.appendUser s :: rest, k + 1 => GenEvent.appendUser s :: consumePrefix rest (k + 1)
  | GenEvent.appendAI s :: rest, k + 1 => GenEvent.appendAI s :: consumePrefix rest (k + 1)

/-! ## Claim theorems -/

/-- C1: the safety gate of `analyze_prescription`.  If the decoded validation
has `is_prescription` falsy or confidence below 0.70, the pipeline returns the
fixed rejection result (empty extraction with zero confidence, the single gate
safety flag, `is_safe_to_display` false, empty OCR text, and no
`ambiguity_state` key); if `is_prescription` is true and the confidence is at
least 0.70, it proceeds past the gate to the OCR and later stages. -/
theorem c1_safety_gate (v : Validation) (ocr : String) (e : Extraction) (a : Audit) :
    (v.is_prescription.getD false = false ∨ v.confidence.getD 0 < 7/10 →
      VisionChain.analyze_prescription v ocr e a =
        { validation := v,
          extraction := { medicines := some [], overall_confidence := some 0 },
          audit := { ambiguities := some [],
                     safety_flags := some [("Image rejected by safety gate.")],
                     is_safe_to_display := some false,
                     validation := none },
          raw_ocr := "",
          ambiguity_state := none }) ∧
    (v.is_prescription.getD false = true → 7/10 ≤ v.confidence.getD 0 →
      VisionChain.analyze_prescription v ocr e a =
        { validation := v,
          extraction := e,
          audit := (determineAmbiguity e { a with validation := some v }).2,
          raw_ocr := ocr,
          ambiguity_state := some (determineAmbiguity e { a with validation := some v }).1 }) := by
  constructor
  · intro h
    simp only [VisionChain.analyze_prescription, if_pos h]
  · intro h1 h2
    have hcond : ¬(v.is_prescription.getD false = false ∨ v.confidence.getD 0 < 7/10) := by
      push_neg
      exact ⟨by simp [h1], h2⟩
    simp only [VisionChain.analyze_prescription, if_neg hcond]

/-- Witness for C1: the gate boundary at confidence 0.69 (rejected) and at
confidence 0.70 (proceeds). -/
theorem c1_safety_gate_witness :
    VisionChain.analyze_prescription ⟨some true, some (69/100), none⟩ ("raw ocr")
        ⟨some [], some (85/100)⟩ ⟨some [], some [], some true, none⟩ =
      { validation := ⟨some true, some (69/100), none⟩,
        extraction := { medicines := some [], overall_confidence := some 0 },
        audit := { ambiguities := some [],
                   safety_flags := some [("Image rejected by safety gate.")],
                   is_safe_to_display := some false,
                   validation := none },
        raw_ocr := "",
        ambiguity_state := none } ∧
    VisionChain.analyze_prescription ⟨some true, some (7/10), none⟩ ("raw ocr")
        ⟨some [], some (85/100)⟩ ⟨some [], some [], some true, none⟩ =
      { validation := ⟨some true, some (7/10), none⟩,
        extraction := ⟨some [], some (85/100)⟩,
        audit := (determineAmbiguity ⟨some [], some (85/100)⟩
          ⟨some [], some [], some true, some ⟨some true, some (7/10), none⟩⟩).2,
        raw_ocr := ("raw ocr"),
        ambiguity_state := some (determineAmbiguity ⟨some [], some (85/100)⟩
          ⟨some [], some [], some true, some ⟨some true, some (7/10), none⟩⟩).1 } := by
  constructor
  · exact (c1_safety_gate _ _ _ _).1 (Or.inr (by norm_num))
  · exact (c1_safety_gate _ _ _ _).2 (by rfl) (by norm_num)

/-- C10: when the decoded extraction lacks the `overall_confidence` key,
the classification step reads the default 1.0, so a run that passes the
safety gate always ends in state CLEAR, whatever the audit ambiguities are. -/
theorem c10_missing_confidence_is_clear (v : Validation) (ocr : String)
    (e : Extraction) (a : Audit)
    (h1 : v.is_prescription.getD false = true) (h2 : 7/10 ≤ v.confidence.getD 0)
    (h3 : e.overall_confidence = none) :
    (VisionChain.analyze_prescription v ocr e a).ambiguity_state = some ("CLEAR") := by
  have hcond : ¬(v.is_prescription.getD false = false ∨ v.confidence.getD 0 < 7/10) := by
    push_neg
    exact ⟨by simp [h1], h2⟩
  have hres : VisionChain.analyze_prescription v ocr e a =
      { validation := v,
        extraction := e,
        audit := (determineAmbiguity e { a with validation := some v }).2,
        raw_ocr := ocr,
        ambiguity_state := some (determineAmbiguity e { a with validation := some v }).1 } := by
    simp only [VisionChain.analyze_prescription, if_neg hcond]
  rw [hres]
  have hstate : classifyState ((e.overall_confidence).getD 1)
      (({ a with validation := some v } : Audit).ambiguities.getD []) = ("CLEAR") := by
    rw [h3]
    simp only [Option.getD_none, classifyState]
    rw [if_pos (by norm_num)]
  simp only [determineAmbiguity, hstate]
  rw [if_neg (by decide)]

/-- Witness for C10: gate-passing validation, extraction with no
`overall_confidence` key, and an audit with one suggestion-free ambiguity
still classify as CLEAR. -/
theorem c10_missing_confidence_witness :
    (VisionChain.analyze_prescription ⟨some true, some (9/10), none⟩ ("raw ocr")
      ⟨some [], none⟩
      ⟨some [⟨some ("Amox"), some ("name"), some ("smudged"), some []⟩], some [], some true, none⟩
      ).ambiguity_state = some ("CLEAR") :=
  c10_missing_confidence_is_clear _ _ _ _ (by rfl) (by norm_num) (by rfl)

/-- C6 counterexample: for the unrecognized mode string "Summarize",
`get_mode_prompt` does not fail — it silently returns the default assistant
instruction, and `stream_with_mode` builds its system prompt from that
default.  This refutes the claim that an unrecognized mode fails with a
`ConfigurationError`. -/
theorem c6_unknown_mode_counterexample :
    (("Summarize") ∉ MODE_PROMPTS.map Prod.fst) ∧
    get_mode_prompt ("Summarize") = ("You are a helpful medical assistant.") ∧
    systemPromptFor ("Summarize") ("CLEAR") = ("You are a helpful medical assistant.") := by
  refine ⟨by decide, by decide, ?_⟩
  have : get_mode_prompt ("Summarize") = ("You are a helpful medical assistant.") := by decide
  simp [systemPromptFor, this]

/-- C6 amended: for every mode string outside the closed set of chat modes,
`get_mode_prompt` silently substitutes the default assistant instruction
"You are a helpful medical assistant." and the conversation streaming
operation proceeds with it; no error of any kind is raised. -/
theorem c6_unknown_mode_defaults (mode : String)
    (h1 : mode ≠ ("Explain Prescription")) (h2 : mode ≠ ("Create Schedule")) :
    get_mode_prompt mode = ("You are a helpful medical assistant.") ∧
    systemPromptFor mode ("CLEAR") = ("You are a helpful medical assistant.") := by
  have hb1 : (mode == ("Explain Prescription")) = false := beq_eq_false_iff_ne.mpr h1
  have hb2 : (mode == ("Create Schedule")) = false := beq_eq_false_iff_ne.mpr h2
  have hlookup : get_mode_prompt mode = ("You are a helpful medical assistant.") := by
    simp [get_mode_prompt, MODE_PROMPTS, List.lookup, hb1, hb2, DEFAULT_MODE_TEXT]
  exact ⟨hlookup, by simp [systemPromptFor, hlookup]⟩

/-- Witness for C6 amended: the concrete unknown mode "General Chat". -/
theorem c6_unknown_mode_defaults_witness :
    get_mode_prompt ("General Chat") = ("You are a helpful medical assistant.") ∧
    systemPromptFor ("General Chat") ("CLEAR") = ("You are a helpful medical assistant.") :=
  c6_unknown_mode_defaults ("General Chat") (by decide) (by decide)

/-- C8: a non-success HTTP status fails the whole `stream` call with the
error message carrying the status code and the raw response body, and no
fragment list is ever produced in that case. -/
theorem c8_api_error_no_fragments (parse : SSEDecoder) (response : HTTPResponse)
    (h : response.status_code ≠ 200) :
    VisionLLMClient.stream parse response =
      Except.error (("API Error ") ++ toString response.status_code ++ (": ") ++ response.text) ∧
    ∀ outcome : List String × Bool,
      VisionLLMClient.stream parse response ≠ Except.ok outcome := by
  have he : VisionLLMClient.stream parse response =
      Except.error (apiErrorMessage response.status_code response.text) := by
    simp [VisionLLMClient.stream, h]
  refine ⟨by simpa [apiErrorMessage] using he, fun outcome hc => ?_⟩
  rw [he] at hc
  cases hc

/-- Witness for C8: a concrete 500 response. -/
theorem c8_api_error_witness :
    VisionLLMClient.stream (fun _ => PayloadResult.skipped)
        ⟨500, ("Internal Server Error"), [("data: x")]⟩ =
      Except.error (("API Error ") ++ toString (500 : Nat) ++ (": ") ++ ("Internal Server Error")) :=
  (c8_api_error_no_fragments (fun _ => PayloadResult.skipped)
    ⟨500, ("Internal Server Error"), [("data: x")]⟩ (by decide)).1

/-- Padding lemma: an infix of `mid` is an infix of `a ++ (mid ++ c)`. -/
theorem isInfix_pad {α : Type} {needle mid : List α} (a c : List α)
    (h : needle <:+: mid) : needle <:+: a ++ (mid ++ c) := by
  obtain ⟨s, t, hst⟩ := h
  refine ⟨a ++ s, t ++ c, ?_⟩
  rw [← hst]
  simp [List.append_assoc]

set_option maxRecDepth 8192 in
/-- C2: for every chat mode and every extraction context, when the ambiguity
state is UNRESOLVABLE the outgoing system message contains the full fixed
safety directive, and in particular the substring
"Do NOT infer or suggest medicine names" (the directive continues with
"unless the user explicitly provides them in this chat").  The injection is
independent of the mode, so no mode choice can suppress it. -/
theorem c2_safety_injection (mode extraction_json : String) :
    containsSubstring (combinedSystem mode ("UNRESOLVABLE") extraction_json)
      ("The current prescription handwriting is UNRESOLVABLE. Do NOT infer or suggest medicine names unless the user explicitly provides them in this chat. Avoid all guesses.") ∧
    containsSubstring (combinedSystem mode ("UNRESOLVABLE") extraction_json)
      ("Do NOT infer or suggest medicine names") := by
  have hshape : (combinedSystem mode ("UNRESOLVABLE") extraction_json).data =
      (get_mode_prompt mode).data ++
        (SAFETY_RULE_SUFFIX.data ++
          ((("\n\n") : String).data ++ (CONTEXT_PREFIX ++ extraction_json).data)) := by
    simp [combinedSystem, systemPromptFor, List.append_assoc]
  constructor
  · have hin : (("The current prescription handwriting is UNRESOLVABLE. Do NOT infer or suggest medicine names unless the user explicitly provides them in this chat. Avoid all guesses.") : String).data <:+: SAFETY_RULE_SUFFIX.data := by decide
    unfold containsSubstring
    rw [hshape]
    exact isInfix_pad _ _ hin
  · have hin : (("Do NOT infer or suggest medicine names") : String).data <:+: SAFETY_RULE_SUFFIX.data := by decide
    unfold containsSubstring
    rw [hshape]
    exact isInfix_pad _ _ hin

/-- The two fixed UNRESOLVABLE flags are distinct strings. -/
theorem flags_distinct : FLAG_NO_CANDIDATES ≠ FLAG_UNCLEAR := by decide

/-- Characterisation of the flag update: the UNRESOLVABLE branch appends, in
order, exactly those of the two fixed strings that are not already present. -/
theorem unresolvableFlags_eq_append_missing (flags : List String) :
    unresolvableFlags flags =
      flags ++ ([FLAG_UNCLEAR, FLAG_NO_CANDIDATES].filter (fun s => decide (s ∉ flags))) := by
  unfold unresolvableFlags appendIfAbsent
  by_cases h1 : FLAG_UNCLEAR ∈ flags <;> by_cases h2 : FLAG_NO_CANDIDATES ∈ flags <;>
    simp [h1, h2, List.filter, flags_distinct]

/-- The pair computed by `determineAmbiguity`, split into the pure state
decision and the conditional flag update. -/
theorem determineAmbiguity_eq (e : Extraction) (a : Audit) :
    determineAmbiguity e a =
      (classifyState (e.overall_confidence.getD 1) (a.ambiguities.getD []),
       if classifyState (e.overall_confidence.getD 1) (a.ambiguities.getD []) = ("UNRESOLVABLE")
       then { a with safety_flags := some (unresolvableFlags (a.safety_flags.getD [])) }
       else a) := by
  unfold determineAmbiguity
  split <;> simp_all


/-- C3: the classification step.  With overall confidence `conf` and
ambiguity list `ambs` decoded, the state is CLEAR exactly when
`conf ≥ 0.70`; otherwise CLARIFIABLE exactly when the ambiguity list is
non-empty and some ambiguity has a non-empty options list; otherwise
UNRESOLVABLE, and in that case (and only that case) exactly the two fixed
strings are inserted at the end of `safety_flags`, each only when not
already present. -/
theorem c3_classification (conf : ℚ) (ambs : List Ambiguity) (e : Extraction) (a : Audit)
    (he : e.overall_confidence = some conf) (ha : a.ambiguities = some ambs) :
    ((determineAmbiguity e a).1 = ("CLEAR") ↔ 7/10 ≤ conf) ∧
    ((determineAmbiguity e a).1 = ("CLARIFIABLE") ↔
      (conf < 7/10 ∧ ambs ≠ [] ∧ ∃ amb ∈ ambs, amb.options.getD [] ≠ [])) ∧
    ((determineAmbiguity e a).1 = ("UNRESOLVABLE") ↔
      (conf < 7/10 ∧ ¬(ambs ≠ [] ∧ ∃ amb ∈ ambs, amb.options.getD [] ≠ []))) ∧
    ((determineAmbiguity e a).2.safety_flags =
      if (determineAmbiguity e a).1 = ("UNRESOLVABLE") then
        some ((a.safety_flags.getD []) ++
          ([FLAG_UNCLEAR, FLAG_NO_CANDIDATES].filter
            (fun s => decide (s ∉ a.safety_flags.getD []))))
      else a.safety_flags) := by
  have hopts : (0 < ambs.length ∧
      (ambs.any fun amb => decide (0 < (amb.options.getD []).length)) = true) ↔
      (ambs ≠ [] ∧ ∃ amb ∈ ambs, amb.options.getD [] ≠ []) := by
    constructor
    · rintro ⟨hlen, hany⟩
      obtain ⟨amb, hmem, hamb⟩ := List.any_eq_true.mp hany
      exact ⟨List.length_pos.mp hlen, amb, hmem,
        List.length_pos.mp (of_decide_eq_true hamb)⟩
    · rintro ⟨hne, amb, hmem, hamb⟩
      exact ⟨List.length_pos.mpr hne,
        List.any_eq_true.mpr ⟨amb, hmem, decide_eq_true (List.length_pos.mpr hamb)⟩⟩
  rw [determineAmbiguity_eq, he, ha]
  simp only [Option.getD_some]
  rcases lt_or_le conf (7/10) with hlt | hge
  · by_cases hcl : 0 < ambs.length ∧
        (ambs.any fun amb => decide (0 < (amb.options.getD []).length)) = true
    · have hstate : classifyState conf ambs = ("CLARIFIABLE") := by
        unfold classifyState
        rw [if_neg (not_le.mpr hlt), if_pos hcl]
      simp only [hstate]
      exact ⟨iff_of_false (by decide) (not_le.mpr hlt),
        iff_of_true trivial ⟨hlt, hopts.mp hcl⟩,
        iff_of_false (by decide) (fun h => h.2 (hopts.mp hcl)), rfl⟩
    · have hstate : classifyState conf ambs = ("UNRESOLVABLE") := by
        unfold classifyState
        rw [if_neg (not_le.mpr hlt), if_neg hcl]
      simp only [hstate]
      exact ⟨iff_of_false (by decide) (not_le.mpr hlt),
        iff_of_false (by decide) (fun h => hcl (hopts.mpr h.2)),
        iff_of_true trivial ⟨hlt, fun h => hcl (hopts.mpr h)⟩,
        congrArg some (unresolvableFlags_eq_append_missing _)⟩
  · have hstate : classifyState conf ambs = ("CLEAR") := by
      unfold classifyState
      rw [if_pos hge]
    simp only [hstate]
    exact ⟨iff_of_true trivial hge,
      iff_of_false (by decide) (fun h => absurd h.1 (not_lt.mpr hge)),
      iff_of_false (by decide) (fun h => absurd h.1 (not_lt.mpr hge)), rfl⟩

/-- Witness for C3: confidence 0.5 with one option-bearing ambiguity is
CLARIFIABLE with unchanged flags. -/
theorem c3_classification_witness :
    ((determineAmbiguity ⟨some [], some (1/2)⟩
        ⟨some [⟨some ("Amox"), some ("name"), some ("smudged"),
          some [("Amoxicillin"), ("Amoxapine")]⟩], some [], some true, none⟩).1
      = ("CLEAR") ↔ (7:ℚ)/10 ≤ 1/2) ∧
    ((determineAmbiguity ⟨some [], some (1/2)⟩
        ⟨some [⟨some ("Amox"), some ("name"), some ("smudged"),
          some [("Amoxicillin"), ("Amoxapine")]⟩], some [], some true, none⟩).1
      = ("CLARIFIABLE") ↔
      ((1:ℚ)/2 < 7/10 ∧
        ([⟨some ("Amox"), some ("name"), some ("smudged"),
          some [("Amoxicillin"), ("Amoxapine")]⟩] : List Ambiguity) ≠ [] ∧
        ∃ amb ∈ ([⟨some ("Amox"), some ("name"), some ("smudged"),
          some [("Amoxicillin"), ("Amoxapine")]⟩] : List Ambiguity),
          amb.options.getD [] ≠ [])) ∧
    ((determineAmbiguity ⟨some [], some (1/2)⟩
        ⟨some [⟨some ("Amox"), some ("name"), some ("smudged"),
          some [("Amoxicillin"), ("Amoxapine")]⟩], some [], some true, none⟩).1
      = ("UNRESOLVABLE") ↔
      ((1:ℚ)/2 < 7/10 ∧
        ¬(([⟨some ("Amox"), some ("name"), some ("smudged"),
          some [("Amoxicillin"), ("Amoxapine")]⟩] : List Ambiguity) ≠ [] ∧
        ∃ amb ∈ ([⟨some ("Amox"), some ("name"), some ("smudged"),
          some [("Amoxicillin"), ("Amoxapine")]⟩] : List Ambiguity),
          amb.options.getD [] ≠ []))) ∧
    ((determineAmbiguity ⟨some [], some (1/2)⟩
        ⟨some [⟨some ("Amox"), some ("name"), some ("smudged"),
          some [("Amoxicillin"), ("Amoxapine")]⟩], some [], some true, none⟩).2.safety_flags =
      if (determineAmbiguity ⟨some [], some (1/2)⟩
        ⟨some [⟨some ("Amox"), some ("name"), some ("smudged"),
          some [("Amoxicillin"), ("Amoxapine")]⟩], some [], some true, none⟩).1
        = ("UNRESOLVABLE") then
        some ((([] : List String)) ++
          ([FLAG_UNCLEAR, FLAG_NO_CANDIDATES].filter
            (fun s => decide (s ∉ ([] : List String)))))
      else some []) :=
  c3_classification (1/2) _ _ _ (by rfl) (by rfl)

/-- The appended flag is a member of the result. -/
theorem mem_appendIfAbsent_self (flags : List String) (f : String) :
    f ∈ appendIfAbsent flags f := by
  unfold appendIfAbsent
  split
  · assumption
  · simp

/-- Membership is preserved by `appendIfAbsent`. -/
theorem mem_appendIfAbsent_of_mem {flags : List String} {g : String} (f : String)
    (h : g ∈ flags) : g ∈ appendIfAbsent flags f := by
  unfold appendIfAbsent
  split
  · exact h
  · exact List.mem_append_left _ h

/-- A flag already present is not appended again. -/
theorem appendIfAbsent_of_mem {flags : List String} {f : String} (h : f ∈ flags) :
    appendIfAbsent flags f = flags := if_pos h

/-- The count of the appended flag grows to at most `max (old count) 1`. -/
theorem count_appendIfAbsent_self (flags : List String) (f : String) :
    (appendIfAbsent flags f).count f ≤ max (flags.count f) 1 := by
  unfold appendIfAbsent
  split
  · exact le_max_left _ _
  · rename_i h
    have hz : flags.count f = 0 := List.count_eq_zero.mpr h
    simp [List.count_append, hz]

/-- The count of any other string is unchanged by `appendIfAbsent`. -/
theorem count_appendIfAbsent_other (flags : List String) (f g : String) (h : g ≠ f) :
    (appendIfAbsent flags f).count g = flags.count g := by
  unfold appendIfAbsent
  split
  · rfl
  · simp [List.count_append, List.count_cons, List.count_nil, h]

/-- The UNRESOLVABLE flag update is idempotent. -/
theorem unresolvableFlags_idem (flags : List String) :
    unresolvableFlags (unresolvableFlags flags) = unresolvableFlags flags := by
  have h1 : FLAG_UNCLEAR ∈ unresolvableFlags flags :=
    mem_appendIfAbsent_of_mem _ (mem_appendIfAbsent_self _ _)
  have h2 : FLAG_NO_CANDIDATES ∈ unresolvableFlags flags :=
    mem_appendIfAbsent_self _ _
  show appendIfAbsent (appendIfAbsent (unresolvableFlags flags) FLAG_UNCLEAR) FLAG_NO_CANDIDATES
      = unresolvableFlags flags
  rw [appendIfAbsent_of_mem h1, appendIfAbsent_of_mem h2]

/-- C4: the classification step is idempotent — rerunning it on its own
output yields the same state and the same audit record — and repeated
classification never accumulates duplicates of the two fixed flags: each
occurs in the updated `safety_flags` at most `max (previous count) 1`
times. -/
theorem c4_classification_idempotent (e : Extraction) (a : Audit) :
    determineAmbiguity e (determineAmbiguity e a).2 = determineAmbiguity e a ∧
    ((determineAmbiguity e a).2.safety_flags.getD []).count FLAG_UNCLEAR ≤
      max ((a.safety_flags.getD []).count FLAG_UNCLEAR) 1 ∧
    ((determineAmbiguity e a).2.safety_flags.getD []).count FLAG_NO_CANDIDATES ≤
      max ((a.safety_flags.getD []).count FLAG_NO_CANDIDATES) 1 := by
  have hdistinct : FLAG_UNCLEAR ≠ FLAG_NO_CANDIDATES := by decide
  by_cases hU : classifyState (e.overall_confidence.getD 1) (a.ambiguities.getD [])
      = ("UNRESOLVABLE")
  · have hfst : determineAmbiguity e a =
        (("UNRESOLVABLE"),
         { a with safety_flags := some (unresolvableFlags (a.safety_flags.getD [])) }) := by
      rw [determineAmbiguity_eq, hU, if_pos rfl]
    have hamb : ({ a with
        safety_flags := some (unresolvableFlags (a.safety_flags.getD [])) } : Audit).ambiguities
        = a.ambiguities := rfl
    have hsnd : determineAmbiguity e
        { a with safety_flags := some (unresolvableFlags (a.safety_flags.getD [])) } =
        (("UNRESOLVABLE"),
         { a with safety_flags := some (unresolvableFlags (a.safety_flags.getD [])) }) := by
      rw [determineAmbiguity_eq, hamb, hU, if_pos rfl]
      exact congrArg (Prod.mk _)
        (congrArg (fun fl => { a with safety_flags := some fl })
          (unresolvableFlags_idem (a.safety_flags.getD [])))
    refine ⟨?_, ?_, ?_⟩
    · rw [hfst]
      exact hsnd
    · rw [hfst]
      show (unresolvableFlags (a.safety_flags.getD [])).count FLAG_UNCLEAR ≤ _
      rw [show unresolvableFlags (a.safety_flags.getD [])
            = appendIfAbsent (appendIfAbsent (a.safety_flags.getD []) FLAG_UNCLEAR)
                FLAG_NO_CANDIDATES from rfl,
          count_appendIfAbsent_other _ _ _ hdistinct]
      exact count_appendIfAbsent_self _ _
    · rw [hfst]
      show (unresolvableFlags (a.safety_flags.getD [])).count FLAG_NO_CANDIDATES ≤ _
      calc (unresolvableFlags (a.safety_flags.getD [])).count FLAG_NO_CANDIDATES
          ≤ max ((appendIfAbsent (a.safety_flags.getD []) FLAG_UNCLEAR).count
              FLAG_NO_CANDIDATES) 1 := count_appendIfAbsent_self _ _
        _ = max ((a.safety_flags.getD []).count FLAG_NO_CANDIDATES) 1 := by
            rw [count_appendIfAbsent_other _ _ _ hdistinct.symm]
  · have hfst : determineAmbiguity e a =
        (classifyState (e.overall_confidence.getD 1) (a.ambiguities.getD []), a) := by
      rw [determineAmbiguity_eq, if_neg hU]
    refine ⟨?_, ?_, ?_⟩
    · rw [hfst]
      exact hfst
    · rw [hfst]
      exact le_max_left _ _
    · rw [hfst]
      exact le_max_left _ _

/-- C7: a completed `stream_with_mode` turn.  Whatever the model streams, the
fragment sequence delivered to the caller is the model chunks followed by
exactly one final separate fragment equal to the fixed disclaimer constant,
and exactly two `ChatTurn`s are appended to the conversation history: the
user text and the assistant reply, the latter being the concatenated model
output with the disclaimer appended. -/
theorem c7_disclaimer_and_history (model_chunks : List String) (user_query : String) :
    fragmentsOfTrace (streamWithModeTrace model_chunks user_query) =
      model_chunks ++ [GLOBAL_DISCLAIMER] ∧
    turnsOfTrace (streamWithModeTrace model_chunks user_query) =
      [ChatTurn.user user_query,
       ChatTurn.assistant (concatAll model_chunks ++ GLOBAL_DISCLAIMER)] := by
  constructor
  · simp only [streamWithModeTrace, fragmentsOfTrace, List.filterMap_cons,
      List.filterMap_append, List.filterMap_map]
    induction model_chunks with
    | nil => rfl
    | cons c rest ih =>
      simpa [List.filterMap_cons] using ih
  · simp only [streamWithModeTrace, turnsOfTrace, List.filterMap_cons,
      List.filterMap_append, List.filterMap_map]
    induction model_chunks with
    | nil => rfl
    | cons c rest ih =>
      simp [List.filterMap_cons, ih]

/-- C9 counterexample: a turn with two model chunks has three fragments; a
caller that consumes exactly one fragment and then abandons the stream has
already caused a `ChatTurn` (the user turn, appended before the first yield
at source line 181) to be added to the conversation history.  This refutes
the claim that an aborted turn appends no `ChatTurn` at all. -/
theorem c9_abandoned_turn_counterexample :
    1 < (fragmentsOfTrace (streamWithModeTrace [("Take "), ("Amoxicillin")]
          ("what is this"))).length ∧
    turnsOfTrace (consumePrefix
        (streamWithModeTrace [("Take "), ("Amoxicillin")] ("what is this")) 1)
      = [ChatTurn.user ("what is this")] := by
  constructor
  · decide
  · decide

/-- Consuming `j ≤ length + 1` fragments from the emit section of the trace
executes exactly the first `j` emit events and nothing after them. -/
theorem consumePrefix_emits (model_chunks : List String) (reply : String) (j : Nat)
    (h : j ≤ model_chunks.length + 1) :
    consumePrefix (model_chunks.map GenEvent.emit ++
        [GenEvent.emit GLOBAL_DISCLAIMER, GenEvent.appendAI reply]) j =
      ((model_chunks ++ [GLOBAL_DISCLAIMER]).take j).map GenEvent.emit := by
  induction model_chunks generalizing j with
  | nil =>
    have h1 : j ≤ 1 := by simpa using h
    match j, h1 with
    | 0, _ => rfl
    | 1, _ => rfl
  | cons c rest ih =>
    match j with
    | 0 => rfl
    | j' + 1 =>
      have hj : j' ≤ rest.length + 1 := by
        simpa [Nat.succ_le_succ_iff] using h
      simp only [List.map_cons, List.cons_append, consumePrefix, List.append_eq]
      rw [ih j' hj]
      rfl

/-- C9 amended: when the caller abandons the fragment stream after consuming
`k` fragments without exhausting it, no further fragments are produced (the
executed trace emits exactly the `k` consumed fragments), the assistant
`ChatTurn` is never appended for that aborted turn, but the user `ChatTurn`
has already been appended as soon as the first fragment was requested: the
history gains `[user turn]` for `k ≥ 1` and nothing for `k = 0`. -/
theorem c9_abandoned_turn_appends_user_only (model_chunks : List String)
    (user_query : String) (k : Nat) (h : k ≤ model_chunks.length + 1) :
    fragmentsOfTrace (consumePrefix (streamWithModeTrace model_chunks user_query) k) =
      (model_chunks ++ [GLOBAL_DISCLAIMER]).take k ∧
    turnsOfTrace (consumePrefix (streamWithModeTrace model_chunks user_query) k) =
      (if k = 0 then [] else [ChatTurn.user user_query]) ∧
    ∀ reply_text, ChatTurn.assistant reply_text ∉
      turnsOfTrace (consumePrefix (streamWithModeTrace model_chunks user_query) k) := by
  match k with
  | 0 =>
    refine ⟨rfl, rfl, ?_⟩
    intro reply_text hmem
    rw [show consumePrefix (streamWithModeTrace model_chunks user_query) 0 = [] from rfl] at hmem
    simp [turnsOfTrace] at hmem
  | k' + 1 =>
    have hk : k' + 1 ≤ model_chunks.length + 1 := h
    have hstep : consumePrefix (streamWithModeTrace model_chunks user_query) (k' + 1) =
        GenEvent.appendUser user_query ::
          ((model_chunks ++ [GLOBAL_DISCLAIMER]).take (k' + 1)).map GenEvent.emit := by
      simp only [streamWithModeTrace, consumePrefix]
      rw [consumePrefix_emits model_chunks _ (k' + 1) hk]
    rw [hstep]
    refine ⟨?_, ?_, ?_⟩
    · simp only [fragmentsOfTrace, List.filterMap_cons, List.filterMap_map]
      induction (model_chunks ++ [GLOBAL_DISCLAIMER]).take (k' + 1) with
      | nil => rfl
      | cons c rest ih => simp [List.filterMap_cons, ih]
    · simp only [turnsOfTrace, List.filterMap_cons, List.filterMap_map, if_neg (Nat.succ_ne_zero k')]
      induction (model_chunks ++ [GLOBAL_DISCLAIMER]).take (k' + 1) with
      | nil => rfl
      | cons c rest ih => simp [List.filterMap_cons, ih]
    · intro reply_text hmem
      simp only [turnsOfTrace, List.filterMap_cons] at hmem
      rw [List.filterMap_map] at hmem
      have : List.filterMap ((fun e => match e with
          | GenEvent.appendUser s => some (ChatTurn.user s)
          | GenEvent.appendAI s => some (ChatTurn.assistant s)
          | _ => none) ∘ GenEvent.emit) ((model_chunks ++ [GLOBAL_DISCLAIMER]).take (k' + 1))
          = [] := by
        induction (model_chunks ++ [GLOBAL_DISCLAIMER]).take (k' + 1) with
        | nil => rfl
        | cons c rest ih => simp [List.filterMap_cons, ih]
      rw [this] at hmem
      simp at hmem

/-- Witness for C9 amended: one chunk, one consumed fragment. -/
theorem c9_abandoned_turn_witness :
    fragmentsOfTrace (consumePrefix (streamWithModeTrace [("hello")] ("hi")) 1) =
      ([("hello")] ++ [GLOBAL_DISCLAIMER]).take 1 ∧
    turnsOfTrace (consumePrefix (streamWithModeTrace [("hello")] ("hi")) 1) =
      (if 1 = 0 then [] else [ChatTurn.user ("hi")]) ∧
    ∀ reply_text, ChatTurn.assistant reply_text ∉
      turnsOfTrace (consumePrefix (streamWithModeTrace [("hello")] ("hi")) 1) :=
  c9_abandoned_turn_appends_user_only [("hello")] ("hi") 1 (by decide)

/-- A line is a data event whose payload, stripped, is the `[DONE]`
end-of-stream signal. -/
def isDoneLine (line : String) : Bool :=
  startsWithChars line ("data: ") && (stripChars (dropChars line 6) == ("[DONE]"))

/-- The decoded content of a well-formed data event: `some c` when the line
carries the `"data: "` prefix and its payload decodes to the content `c`,
`none` for every other line. -/
def wellFormedContent (parse : SSEDecoder) (line : String) : Option String :=
  if startsWithChars line ("data: ") = true then
    match parse (dropChars line 6) with
    | PayloadResult.content c => some c
    | _ => none
  else none

/-- The stream stops processing at this line: either it is the `[DONE]`
signal, or it is a data event whose payload decode raises an uncaught
exception. -/
def stopsStream (parse : SSEDecoder) (line : String) : Bool :=
  startsWithChars line ("data: ") &&
    ((stripChars (dropChars line 6) == ("[DONE]")) ||
      (match parse (dropChars line 6) with
       | PayloadResult.raised => true
       | _ => false))

/-- Spec-side reading of the stream contract: the decoded contents of the
well-formed data events, in wire order, preceding the first event that ends
the stream — the first `[DONE]` signal or the first payload whose decode
raises an uncaught exception. -/
def specStreamContents (parse : SSEDecoder) (lines : List String) : List String :=
  (lines.takeWhile (fun l => !(stopsStream parse l))).filterMap (wellFormedContent parse)

/-- The stream is aborted by an uncaught decode exception exactly when some
data event before the first `[DONE]` signal has a payload whose decode
raises an exception outside the three caught classes. -/
def specStreamAborts (parse : SSEDecoder) (lines : List String) : Bool :=
  (lines.takeWhile (fun l => !(isDoneLine l))).any (fun l =>
    startsWithChars l ("data: ") &&
      (match parse (dropChars l 6) with
       | PayloadResult.raised => true
       | _ => false))

/-- C5 counterexample: the claim fails on a body whose first data payload is
`[1]`.  `json.loads` succeeds on it with a list, then `chunk["choices"]`
raises `TypeError`, which the `except` clause at source line 109 does not
catch: the stream aborts having yielded nothing, while the claim requires
the stream never to abort and the later well-formed event (content `A`) to
be delivered — the concatenation of the yielded fragments differs from the
concatenation over the well-formed data events preceding the first `[DONE]`
signal. -/
theorem c5_sse_abort_counterexample :
    (sseRun
        (fun s => if s = ("[1]") then PayloadResult.raised
          else PayloadResult.content ("A"))
        [("data: [1]"),
         ("data: \x7b\"choices\": [\x7b\"delta\": \x7b\"content\": \"A\"\x7d\x7d]\x7d")]).2
      = true ∧
    concatAll (sseRun
        (fun s => if s = ("[1]") then PayloadResult.raised
          else PayloadResult.content ("A"))
        [("data: [1]"),
         ("data: \x7b\"choices\": [\x7b\"delta\": \x7b\"content\": \"A\"\x7d\x7d]\x7d")]).1
      ≠ concatAll
          (([("data: [1]"),
             ("data: \x7b\"choices\": [\x7b\"delta\": \x7b\"content\": \"A\"\x7d\x7d]\x7d")].takeWhile
              (fun l => !(isDoneLine l))).filterMap
            (wellFormedContent (fun s => if s = ("[1]") then PayloadResult.raised
              else PayloadResult.content ("A")))) := by
  constructor
  · decide
  · decide

/-- C5 amended: for every SSE response body, the concatenation of the
fragments the client yields equals the concatenation, in wire order, of the
decoded contents of the well-formed data events preceding the first event
that ends the stream — the first `[DONE]` signal or the first payload whose
decode raises an uncaught exception.  Lines without the `"data: "` prefix
and payloads raising one of the three caught exception classes contribute
nothing and never abort the stream; a payload raising any other exception
aborts the stream at exactly that point, which happens precisely when such
a payload occurs before the first `[DONE]` signal. -/
theorem c5_sse_stream_concat_with_abort (parse : SSEDecoder) (lines : List String) :
    concatAll (sseRun parse lines).1 = concatAll (specStreamContents parse lines) ∧
    (sseRun parse lines).2 = specStreamAborts parse lines := by
  induction lines with
  | nil => exact ⟨rfl, rfl⟩
  | cons line rest ih =>
    by_cases hpre : startsWithChars line ("data: ") = true
    · have hne : line ≠ ("") := by
        intro hemp
        rw [hemp] at hpre
        exact absurd hpre (by decide)
      by_cases hdone : stripChars (dropChars line 6) = ("[DONE]")
      · have hstop : stopsStream parse line = true := by
          simp [stopsStream, hpre, hdone]
        have hdl : isDoneLine line = true := by
          simp [isDoneLine, hpre, hdone]
        have hL : sseRun parse (line :: rest) = ([], false) := by
          simp [sseRun, hne, hpre, hdone]
        have hR : specStreamContents parse (line :: rest) = [] := by
          simp [specStreamContents, List.takeWhile_cons, hstop]
        have hA : specStreamAborts parse (line :: rest) = false := by
          simp [specStreamAborts, List.takeWhile_cons, hdl]
        rw [hL, hR, hA]
        exact ⟨rfl, rfl⟩
      · have hdl : isDoneLine line = false := by
          simp [isDoneLine, hdone]
        cases hp : parse (dropChars line 6) with
        | skipped =>
          have hstop : stopsStream parse line = false := by
            simp [stopsStream, hdone, hp]
          have hL : sseRun parse (line :: rest) = sseRun parse rest := by
            simp [sseRun, hne, hpre, hdone, hp]
          have hR : specStreamContents parse (line :: rest) =
              specStreamContents parse rest := by
            simp [specStreamContents, List.takeWhile_cons, hstop, List.filterMap_cons,
              wellFormedContent, hpre, hp]
          have hA : specStreamAborts parse (line :: rest) =
              specStreamAborts parse rest := by
            simp [specStreamAborts, List.takeWhile_cons, hdl, hp]
          rw [hL, hR, hA]
          exact ih
        | raised =>
          have hstop : stopsStream parse line = true := by
            simp [stopsStream, hpre, hp]
          have hL : sseRun parse (line :: rest) = ([], true) := by
            simp [sseRun, hne, hpre, hdone, hp]
          have hR : specStreamContents parse (line :: rest) = [] := by
            simp [specStreamContents, List.takeWhile_cons, hstop]
          have hA : specStreamAborts parse (line :: rest) = true := by
            simp [specStreamAborts, List.takeWhile_cons, hdl, hpre, hp]
          rw [hL, hR, hA]
          exact ⟨rfl, rfl⟩
        | content c =>
          have hstop : stopsStream parse line = false := by
            simp [stopsStream, hdone, hp]
          have hR : specStreamContents parse (line :: rest) =
              c :: specStreamContents parse rest := by
            simp [specStreamContents, List.takeWhile_cons, hstop, List.filterMap_cons,
              wellFormedContent, hpre, hp]
          have hA : specStreamAborts parse (line :: rest) =
              specStreamAborts parse rest := by
            simp [specStreamAborts, List.takeWhile_cons, hdl, hp]
          by_cases hc : c = ("")
          · have hL : sseRun parse (line :: rest) = sseRun parse rest := by
              simp [sseRun, hne, hpre, hdone, hp, hc]
            rw [hL, hR, hA]
            refine ⟨?_, ih.2⟩
            rw [concatAll_cons, hc, ih.1]
            simp
          · have hL : sseRun parse (line :: rest) =
                (c :: (sseRun parse rest).1, (sseRun parse rest).2) := by
              simp [sseRun, hne, hpre, hdone, hp, hc]
            rw [hL, hR, hA]
            refine ⟨?_, ih.2⟩
            rw [concatAll_cons, concatAll_cons, ih.1]
    · have hpre' : startsWithChars line ("data: ") = false := by
        cases hb : startsWithChars line ("data: ") with
        | false => rfl
        | true => exact absurd hb hpre
      have hstop : stopsStream parse line = false := by
        simp [stopsStream, hpre']
      have hdl : isDoneLine line = false := by
        simp [isDoneLine, hpre']
      have hL : sseRun parse (line :: rest) = sseRun parse rest := by
        by_cases hemp : line = ("")
        · simp [sseRun, hemp]
        · simp [sseRun, hemp, hpre']
      have hR : specStreamContents parse (line :: rest) = specStreamContents parse rest := by
        simp [specStreamContents, List.takeWhile_cons, hstop, List.filterMap_cons,
          wellFormedContent, hpre']
      have hA : specStreamAborts parse (line :: rest) = specStreamAborts parse rest := by
        simp [specStreamAborts, List.takeWhile_cons, hdl, hpre']
      rw [hL, hR, hA]
      exact ih
